import Mathlib

/-!
Verification of the Alpha-K candidate-evaluation pipeline and the
core-gateway JWT service of the woorung-gaksi repository.

The Alpha-K pipeline agents (services/alpha-k/src/agents) are not present in
the repository snapshot; only their rule documents
(.agent/rules/01_market_regime.md, 02_sector_rotation.md, 04_fundamental.md,
06_risk_management.md, contents mirrored in the unnamed source parts) and the
workflow document (.agent/workflows/04_main_pipeline.md) are.  The pipeline
definitions below are therefore modelled from the specification, with the
rule documents fixing every numeric threshold.  Prices, ratios and scores are
rational numbers.

The JWT definitions in namespace `Auth` embed
services/core-gateway/internal/auth/service.go directly; the HMAC-SHA256
signature is modelled symbolically (a signature is the triple of algorithm,
key and signed claims, and verification is equality of the recomputed
triple), and the base64url/JSON wire encoding, being injective, is modelled
as the identity.
-/

namespace AlphaK

/-- Modelled from the spec: market regime labels produced by Phase 1
(`macro_agent.py` is absent from the repository); spec section 3,
RegimeDecision. -/
inductive Regime where
  | NORMAL
  | BULL
  | BEAR
  | CRASH
deriving DecidableEq

/-- Modelled from the spec: the macro snapshot consumed by RegimeGate
(spec section 3, MarketSnapshot; data fields listed in
.agent/rules/01_market_regime.md). -/
structure MarketSnapshot where
  asOfDate : Nat
  breadthRatio : ℚ
  currentVol : ℚ
  priorVol : ℚ
  indexLevel : ℚ
  indexMA20 : ℚ
  fxCorrelation : ℚ
deriving DecidableEq

/-- Modelled from the spec: Phase 1 output, a regime label plus a bet-size
multiplier (spec section 3, RegimeDecision). -/
structure RegimeDecision where
  decision : Regime
  multiplier : ℚ
deriving DecidableEq

/-- Volatility hard stop of .agent/rules/01_market_regime.md section 2:
current V-KOSPI above 1.05 times the previous value while the index sits
below its 20-day moving average. -/
def volHardStop (s : MarketSnapshot) : Bool :=
  decide (s.priorVol * (105 / 100) < s.currentVol) &&
    decide (s.indexLevel < s.indexMA20)

/-- Breadth band multiplier of .agent/rules/01_market_regime.md section 1:
ADR below 75 is oversold (full size), 75 to 120 passes through (full size,
deferred to setup quality), above 120 is overbought (size zero). -/
def breadthMultiplier (r : ℚ) : ℚ :=
  if 120 < r then 0 else 1

namespace RegimeGate

/-- Modelled from the spec: `evaluate(snapshot) -> RegimeDecision`
(spec section 4.1; thresholds from .agent/rules/01_market_regime.md).
The hard stop yields CRASH with multiplier zero; otherwise the breadth band
fixes the base multiplier, the decoupling check (FX/index correlation above
0.2) halves it multiplicatively, and the label is BEAR exactly in the
extreme-overbought band, NORMAL otherwise. -/
def evaluate (s : MarketSnapshot) : RegimeDecision :=
  if volHardStop s then ⟨Regime.CRASH, 0⟩
  else
    let base := breadthMultiplier s.breadthRatio
    let m := if (2 : ℚ) / 10 < s.fxCorrelation then base / 2 else base
    let d := if 120 < s.breadthRatio then Regime.BEAR else Regime.NORMAL
    ⟨d, m⟩

end RegimeGate

/-- Modelled from the spec: benchmark returns over the three screening
windows (spec section 4.2). -/
structure BenchmarkReturns where
  ret1w : ℚ
  ret1m : ℚ
  ret3m : ℚ
deriving DecidableEq

/-- Modelled from the spec: per-sector input to the screener, already
resolved for the as-of date (spec sections 4.2 and 6). -/
structure SectorData where
  sectorId : String
  ret1w : ℚ
  ret1m : ℚ
  ret3m : ℚ
  largeCapsAbove20MA : Bool
  volumeWoWChange : ℚ
deriving DecidableEq

/-- Modelled from the spec: a screened sector (spec section 3,
SectorCandidate). -/
structure SectorCandidate where
  sectorId : String
  alpha1w : ℚ
  alpha1m : ℚ
  alpha3m : ℚ
  rsScore : ℚ
  trickleDown : Bool
deriving DecidableEq

/-- Alpha and relative-strength scoring of
.agent/rules/02_sector_rotation.md section 1 (unnamed part_011): alpha is
sector return minus benchmark return per window, and the RS score is the
0.5/0.3/0.2 weighted blend; the trickle-down flag follows section 2 of the
same rule. -/
def mkSectorCandidate (bench : BenchmarkReturns) (s : SectorData) :
    SectorCandidate :=
  let a1w := s.ret1w - bench.ret1w
  let a1m := s.ret1m - bench.ret1m
  let a3m := s.ret3m - bench.ret3m
  { sectorId := s.sectorId
    alpha1w := a1w
    alpha1m := a1m
    alpha3m := a3m
    rsScore := (5 / 10) * a1w + (3 / 10) * a1m + (2 / 10) * a3m
    trickleDown :=
      s.largeCapsAbove20MA && decide ((20 : ℚ) / 100 ≤ s.volumeWoWChange) }

/-- Sort key for sectors: descending RS score, then descending 1-month
alpha, then ascending sector identifier (spec section 3 invariants). -/
def sectorKey (c : SectorCandidate) : ℚ ×ₗ (ℚ ×ₗ String) :=
  toLex (-c.rsScore, toLex (-c.alpha1m, c.sectorId))

/-- The screener's total ordering: `a` ranks no later than `b`. -/
def SectorLE (a b : SectorCandidate) : Prop :=
  sectorKey a ≤ sectorKey b

instance : DecidableRel SectorLE := fun a b =>
  inferInstanceAs (Decidable (sectorKey a ≤ sectorKey b))

instance : IsTotal SectorCandidate SectorLE :=
  ⟨fun a b => le_total (sectorKey a) (sectorKey b)⟩

instance : IsTrans SectorCandidate SectorLE :=
  ⟨fun _ _ _ h h' => le_trans h h'⟩

namespace SectorScreener

/-- Modelled from the spec: `screen(sectorSeries, benchmarkSeries)` (spec
section 4.2): score every sector, sort descending by RS score with the
deterministic tie-break, retain the top 3. -/
def screen (bench : BenchmarkReturns) (sectors : List SectorData) :
    List SectorCandidate :=
  (List.insertionSort SectorLE (sectors.map (mkSectorCandidate bench))).take 3

end SectorScreener

/-- Modelled from the spec: inputs of the technical evaluator, resolved
signals of .agent/rules/03_technical_strategy.md (order-block retest, VCP
breakout above the pivot, price above the 60-session point of control). -/
structure TechnicalInput where
  orderBlockRetest : Bool
  vcpBreakout : Bool
  abovePOC : Bool
  support : ℚ
  resistance : ℚ
deriving DecidableEq

/-- Modelled from the spec: Phase 3A output (spec section 3,
TechnicalAssessment; only the fields downstream phases consume). -/
structure TechnicalAssessment where
  score : ℚ
  support : ℚ
  resistance : ℚ
deriving DecidableEq

namespace TechnicalEvaluator

/-- Modelled from the spec: the 0-100 technical score is an
implementation-defined weighted combination of the three signals, monotone
in each and zero absent all of them (spec section 4.3); the weights 40/40/20
are one such choice. -/
def assess (t : TechnicalInput) : TechnicalAssessment :=
  { score := (if t.orderBlockRetest then 40 else 0) +
      (if t.vcpBreakout then 40 else 0) + (if t.abovePOC then 20 else 0)
    support := t.support
    resistance := t.resistance }

end TechnicalEvaluator

/-- Modelled from the spec: the financial-statement record feeding the nine
Piotroski tests of .agent/rules/04_fundamental.md section 1 (unnamed
part_010). -/
structure Financials where
  roa : ℚ
  prevRoa : ℚ
  ocf : ℚ
  netIncome : ℚ
  ltDebtRatio : ℚ
  prevLtDebtRatio : ℚ
  currentRatio : ℚ
  prevCurrentRatio : ℚ
  newSharesIssued : Bool
  grossMargin : ℚ
  prevGrossMargin : ℚ
  assetTurnover : ℚ
  prevAssetTurnover : ℚ
deriving DecidableEq

/-- Piotroski F-score: the sum of the nine binary tests of
.agent/rules/04_fundamental.md section 1, one point each. -/
def fScore (f : Financials) : Nat :=
  (decide ((0 : ℚ) < f.roa)).toNat +
  (decide ((0 : ℚ) < f.ocf)).toNat +
  (decide (f.prevRoa < f.roa)).toNat +
  (decide (f.netIncome < f.ocf)).toNat +
  (decide (f.ltDebtRatio < f.prevLtDebtRatio)).toNat +
  (decide (f.prevCurrentRatio < f.currentRatio)).toNat +
  (!f.newSharesIssued).toNat +
  (decide (f.prevGrossMargin < f.grossMargin)).toNat +
  (decide (f.prevAssetTurnover < f.assetTurnover)).toNat

/-- Modelled from the spec: inputs of the fundamental evaluator
(financials, valuation ratios, disclosure scan results; spec section 4.3). -/
structure FundamentalInput where
  fin : Financials
  stockPE : ℚ
  sectorAvgPE : ℚ
  peg : ℚ
  blacklistDisclosure : Bool
  cbOverhangRatio : ℚ
deriving DecidableEq

/-- Pass/fail verdict of the fundamental evaluator. -/
inductive FundVerdict where
  | PASS
  | FAIL
deriving DecidableEq

/-- Modelled from the spec: Phase 3B output (spec section 3,
FundamentalAssessment). -/
structure FundamentalAssessment where
  fscore : Nat
  relPE : ℚ
  peg : ℚ
  verdict : FundVerdict
  warnings : List String
deriving DecidableEq

namespace FundamentalEvaluator

/-- Modelled from the spec: `assess(candidate) -> FundamentalAssessment`
(spec section 4.3; thresholds from .agent/rules/04_fundamental.md): PASS
exactly when the F-score is at least 7, relative P/E is below 0.8 with PEG
below 1.5, and no blacklist disclosure appeared; a convertible-bond overhang
of 5 percent of market cap or more is a recorded warning, not a fail. -/
def assess (inp : FundamentalInput) : FundamentalAssessment :=
  let fs := fScore inp.fin
  let rel := inp.stockPE / inp.sectorAvgPE
  let valuationOk :=
    decide (rel < (8 : ℚ) / 10) && decide (inp.peg < (15 : ℚ) / 10)
  let verdict :=
    if 7 ≤ fs ∧ valuationOk = true ∧ inp.blacklistDisclosure = false then
      FundVerdict.PASS
    else FundVerdict.FAIL
  { fscore := fs
    relPE := rel
    peg := inp.peg
    verdict := verdict
    warnings :=
      if (5 : ℚ) / 100 ≤ inp.cbOverhangRatio then ["CB overhang"] else [] }

end FundamentalEvaluator

/-- Categorical smart-money level of .agent/rules/05_smart_money.md. -/
inductive FlowLevel where
  | LOW
  | MEDIUM
  | HIGH
deriving DecidableEq

/-- Modelled from the spec: inputs of the flow evaluator (spec section
4.3): slope of the cumulative non-arbitrage program net-buy curve,
foreign/institutional versus retail buy volumes, and the trailing five
sessions of foreign/institutional net flow. -/
structure FlowInput where
  programNetBuySlope : ℚ
  instBuyVolume : ℚ
  retailBuyVolume : ℚ
  netFlows5d : List ℚ
deriving DecidableEq

/-- Modelled from the spec: Phase 3C output (spec section 3,
FlowAssessment). -/
structure FlowAssessment where
  programSignal : Bool
  brokerSignal : Bool
  accumulationDays : Nat
  level : FlowLevel
deriving DecidableEq

namespace FlowEvaluator

/-- Modelled from the spec: `assess(candidate) -> FlowAssessment` (spec
section 4.3): program signal is a positive slope, broker signal is
foreign/institutional buys above twice retail buys, accumulation signal is
at least 3 positive-net-flow days of the trailing 5; HIGH with all three
signals, MEDIUM with exactly two, LOW otherwise. -/
def assess (inp : FlowInput) : FlowAssessment :=
  let s1 := decide ((0 : ℚ) < inp.programNetBuySlope)
  let s2 := decide (2 * inp.retailBuyVolume < inp.instBuyVolume)
  let days := (inp.netFlows5d.filter (fun x => decide ((0 : ℚ) < x))).length
  let s3 := decide (3 ≤ days)
  let pos := s1.toNat + s2.toNat + s3.toNat
  { programSignal := s1
    brokerSignal := s2
    accumulationDays := days
    level :=
      if pos = 3 then FlowLevel.HIGH
      else if pos = 2 then FlowLevel.MEDIUM
      else FlowLevel.LOW }

end FlowEvaluator

/-- Modelled from the spec: the per-ticker triple of assessments handed to
the aggregator (spec section 4.4). -/
structure Assessment3 where
  ticker : String
  tech : TechnicalAssessment
  fund : FundamentalAssessment
  flow : FlowAssessment
deriving DecidableEq

/-- Modelled from the spec: a scored (or discarded) candidate (spec section
3, CompositeScore). -/
structure CompositeScore where
  ticker : String
  techScore : ℚ
  fundVerdict : FundVerdict
  flowLevel : FlowLevel
  score : ℚ
  discardReason : Option String
deriving DecidableEq

/-- Hard filters of .agent/workflows/04_main_pipeline.md Phase 4: keep a
candidate only if the fundamental verdict is not FAIL, the technical score
is at least 70, and the flow level is not LOW. -/
def keepCandidate (a : Assessment3) : Bool :=
  decide (a.fund.verdict ≠ FundVerdict.FAIL) &&
    decide ((70 : ℚ) ≤ a.tech.score) && decide (a.flow.level ≠ FlowLevel.LOW)

/-- Reason string recorded for a discarded candidate (spec section 7: the
pipeline never silently drops a candidate). -/
def discardReasonFor (a : Assessment3) : String :=
  if a.fund.verdict = FundVerdict.FAIL then "fundamental FAIL"
  else if ¬ ((70 : ℚ) ≤ a.tech.score) then "technical score below 70"
  else "flow level LOW"

/-- Numeric flow level of spec section 4.4: HIGH maps to 100, MEDIUM to 50
(LOW never survives the hard filter). -/
def flowNumeric : FlowLevel → ℚ
  | FlowLevel.HIGH => 100
  | FlowLevel.MEDIUM => 50
  | FlowLevel.LOW => 0

/-- Numeric fundamental verdict of spec section 4.4: PASS maps to 100. -/
def fundNumeric : FundVerdict → ℚ
  | FundVerdict.PASS => 100
  | FundVerdict.FAIL => 0

/-- Composite fusion of spec section 4.4 for a surviving candidate. -/
def compositeOf (a : Assessment3) : CompositeScore :=
  { ticker := a.ticker
    techScore := a.tech.score
    fundVerdict := a.fund.verdict
    flowLevel := a.flow.level
    score := (5 / 10) * a.tech.score + (3 / 10) * flowNumeric a.flow.level +
      (2 / 10) * fundNumeric a.fund.verdict
    discardReason := none }

/-- Record produced for a discarded candidate. -/
def discardOf (a : Assessment3) : CompositeScore :=
  { ticker := a.ticker
    techScore := a.tech.score
    fundVerdict := a.fund.verdict
    flowLevel := a.flow.level
    score := 0
    discardReason := some (discardReasonFor a) }

/-- Sort key for composites: descending fused score, then ascending
ticker (spec section 4.4, deterministic tie-break on ticker). -/
def compKey (c : CompositeScore) : ℚ ×ₗ String :=
  toLex (-c.score, c.ticker)

/-- The aggregator's total ordering: `a` ranks no later than `b`. -/
def CompLE (a b : CompositeScore) : Prop :=
  compKey a ≤ compKey b

instance : DecidableRel CompLE := fun a b =>
  inferInstanceAs (Decidable (compKey a ≤ compKey b))

instance : IsTotal CompositeScore CompLE :=
  ⟨fun a b => le_total (compKey a) (compKey b)⟩

instance : IsTrans CompositeScore CompLE :=
  ⟨fun _ _ _ h h' => le_trans h h'⟩

namespace Aggregator

/-- Modelled from the spec: `rank(candidates)` (spec section 4.4): apply
the hard filters, score the survivors, sort descending with the ticker
tie-break and retain the top 3; the second component records every
discarded candidate with its reason. -/
def rank (cands : List Assessment3) :
    List CompositeScore × List CompositeScore :=
  (((cands.filter keepCandidate).map compositeOf).insertionSort CompLE
      |>.take 3,
    (cands.filter (fun a => ! keepCandidate a)).map discardOf)

end Aggregator

/-- Accept/reject verdict of the risk planner. -/
inductive PlanVerdict where
  | ACCEPT
  | REJECT
deriving DecidableEq

/-- Modelled from the spec: Phase 5 output (spec section 3, TradePlan);
the pyramiding schedule is a list of (allocation fraction, profit
trigger) pairs. -/
structure TradePlan where
  ticker : String
  entry : ℚ
  atr14 : ℚ
  stop : ℚ
  rr : ℚ
  pyramid : List (ℚ × ℚ)
  verdict : PlanVerdict
  reason : String
deriving DecidableEq

/-- Fixed pyramiding schedule of .agent/rules/06_risk_management.md
section 1 (unnamed part_010): 30 percent at entry, 30 percent above +3
percent profit, 40 percent above +5 percent profit. -/
def pyramidSchedule : List (ℚ × ℚ) :=
  [(3 / 10, 0), (3 / 10, 3 / 100), (4 / 10, 5 / 100)]

namespace RiskPlanner

/-- Modelled from the spec: `plan(ticker, entry context, ATR14)` (spec
section 4.5; formulas from .agent/rules/06_risk_management.md): the stop is
the average entry price minus 3 times ATR(14); reward is the distance to
the next resistance, risk the distance to the stop; below a reward/risk of
2.0 the verdict is REJECT with reason "R/R below threshold". -/
def plan (ticker : String) (entry atr14 resistance : ℚ) : TradePlan :=
  let stop := entry - 3 * atr14
  let reward := resistance - entry
  let risk := entry - stop
  let rr := reward / risk
  if rr < 2 then
    ⟨ticker, entry, atr14, stop, rr, pyramidSchedule, PlanVerdict.REJECT,
      "R/R below threshold"⟩
  else
    ⟨ticker, entry, atr14, stop, rr, pyramidSchedule, PlanVerdict.ACCEPT,
      "R/R acceptable"⟩

end RiskPlanner

/-- Modelled from the spec: the open position state while pyramiding
(average entry price, total quantity, current stop). -/
structure PositionState where
  avgEntry : ℚ
  qty : ℚ
  stop : ℚ
deriving DecidableEq

/-- Modelled from the spec: one additional pyramided entry
(.agent/rules/06_risk_management.md: on each add the stop is recomputed
from the new blended average entry price and is never lowered; spec
section 4.5, monotonic trailing-up invariant). -/
def addEntry (atr14 : ℚ) (st : PositionState) (price qty : ℚ) :
    PositionState :=
  let newQty := st.qty + qty
  let blended := (st.avgEntry * st.qty + price * qty) / newQty
  ⟨blended, newQty, max st.stop (blended - 3 * atr14)⟩

/-- Modelled from the spec: the pipeline phases, recorded for the
invocation trace (.agent/workflows/04_main_pipeline.md Phases 1-5). -/
inductive Phase where
  | regime
  | sector
  | deepDive
  | aggregate
  | risk
deriving DecidableEq

/-- Modelled from the spec: a candidate's already-resolved data bundle
(spec section 6, `getCandidateBundle`), extended with the entry context the
risk planner consumes. -/
structure CandidateBundle where
  ticker : String
  techIn : TechnicalInput
  fundIn : FundamentalInput
  flowIn : FlowInput
  entry : ℚ
  atr14 : ℚ
deriving DecidableEq

/-- Modelled from the spec: the full input of one pipeline run, keyed by
the as-of date (spec section 6). -/
structure PipelineInput where
  snapshot : MarketSnapshot
  bench : BenchmarkReturns
  sectors : List SectorData
  bundles : List CandidateBundle
  balance : ℚ
deriving DecidableEq

/-- Modelled from the spec: the structured pipeline report (spec section
6, Report). -/
structure Report where
  regime : RegimeDecision
  sectors : List SectorCandidate
  ranked : List CompositeScore
  plans : List TradePlan
deriving DecidableEq

/-- Phase 3 for one candidate: the three mutually independent evaluators
on the candidate's bundle (spec section 4.3). -/
def deepDiveOne (b : CandidateBundle) : Assessment3 :=
  { ticker := b.ticker
    tech := TechnicalEvaluator.assess b.techIn
    fund := FundamentalEvaluator.assess b.fundIn
    flow := FlowEvaluator.assess b.flowIn }

/-- Modelled from the spec: `runPipeline` (spec section 6 and
.agent/workflows/04_main_pipeline.md), returning the report together with
the list of phases that were invoked.  A CRASH or BEAR regime terminates
the workflow after Phase 1; otherwise sectors are screened, every candidate
is deep-dived, the aggregator ranks, and the risk planner emits plans, of
which the report keeps the ACCEPT verdicts. -/
def runPipeline (inp : PipelineInput) : Report × List Phase :=
  let rd := RegimeGate.evaluate inp.snapshot
  if rd.decision = Regime.CRASH ∨ rd.decision = Regime.BEAR then
    (⟨rd, [], [], []⟩, [Phase.regime])
  else
    let secs := SectorScreener.screen inp.bench inp.sectors
    let assessed := inp.bundles.map deepDiveOne
    let ranked := (Aggregator.rank assessed).1
    let plans := ranked.filterMap (fun c =>
      (inp.bundles.find? (fun b => b.ticker = c.ticker)).map (fun b =>
        RiskPlanner.plan b.ticker b.entry b.atr14 b.techIn.resistance))
    (⟨rd, secs, ranked, plans.filter
        (fun p => p.verdict = PlanVerdict.ACCEPT)⟩,
      [Phase.regime, Phase.sector, Phase.deepDive, Phase.aggregate,
        Phase.risk])

/-- Modelled from the spec: ambient process state a run could in principle
observe (wall clock, scheduler randomness); the spec forbids any dependence
on it beyond the injected as-of date. -/
structure Ambient where
  wallClock : Nat
  randomSeed : Nat
deriving DecidableEq

/-- Modelled from the spec: one pipeline run in an ambient environment;
the report is a function of the injected inputs alone (spec sections 3
lifecycle and 8, idempotence). -/
def runPipelineAt (amb : Ambient) (inp : PipelineInput) : Report :=
  let _ := amb.wallClock
  let _ := amb.randomSeed
  (runPipeline inp).1

/-- Rendering of one rational as bytes of the report. -/
def qStr (q : ℚ) : String :=
  toString q.num ++ "/" ++ toString q.den

/-- Rendering of one regime label. -/
def regimeStr : Regime → String
  | Regime.NORMAL => "NORMAL"
  | Regime.BULL => "BULL"
  | Regime.BEAR => "BEAR"
  | Regime.CRASH => "CRASH"

/-- Rendering of one trade plan line. -/
def planStr (p : TradePlan) : String :=
  p.ticker ++ ":" ++ qStr p.entry ++ ":" ++ qStr p.stop ++ ":" ++
    qStr p.rr ++ ":" ++ p.reason

/-- Modelled from the spec: serialization of the report to the byte
string the caller receives (spec section 6: the core returns structured
results for the caller to serialize). -/
def serializeReport (r : Report) : String :=
  regimeStr r.regime.decision ++ ";" ++ qStr r.regime.multiplier ++ ";" ++
    String.intercalate "," (r.sectors.map (fun s => s.sectorId)) ++ ";" ++
    String.intercalate ","
      (r.ranked.map (fun c => c.ticker ++ ":" ++ qStr c.score)) ++ ";" ++
    String.intercalate "," (r.plans.map planStr)

end AlphaK

namespace Auth

/-- Signing algorithms relevant to service.go: generation uses HS256 and
validation accepts exactly the HMAC family. -/
inductive Alg where
  | HS256
  | HS384
  | HS512
  | RS256
deriving DecidableEq

/-- Whether the algorithm is an HMAC method (the keyfunc check in
`ValidateToken`). -/
def Alg.isHMAC : Alg → Bool
  | Alg.HS256 => true
  | Alg.HS384 => true
  | Alg.HS512 => true
  | Alg.RS256 => false

/-- Registered claims set by `GenerateToken` (expiry, issuer, issued-at),
times in unix seconds. -/
structure RegisteredClaims where
  expiresAt : Int
  issuer : String
  issuedAt : Int
deriving DecidableEq

/-- The custom claims of internal/auth/model.go: user id and role plus the
registered claims. -/
structure Claims where
  userID : String
  role : String
  registered : RegisteredClaims
deriving DecidableEq

/-- A signed token.  The HMAC signature is modelled symbolically: signing
attaches the triple (algorithm, key, signed claims) and verification
recomputes and compares it; the base64url/JSON encoding is injective and is
modelled as the identity. -/
structure Token where
  alg : Alg
  claims : Claims
  sig : Alg × List Nat × Claims
deriving DecidableEq

/-- The `jwtService` struct of service.go. -/
structure JwtService where
  secretKey : List Nat
  issuer : String
  expiry : Int
deriving DecidableEq

/-- `NewJWTService` of service.go: the issuer is fixed to
"woorung-gaksi". -/
def NewJWTService (secret : List Nat) (expiry : Int) : JwtService :=
  ⟨secret, "woorung-gaksi", expiry⟩

/-- `GenerateToken` of service.go: claims carry the user id, the role, an
expiry of now plus the configured duration, the service issuer and the
issue time; the token is signed with HS256 under the service secret.
`now` makes the two `time.Now()` reads explicit. -/
def GenerateToken (s : JwtService) (now : Int) (userID role : String) :
    Token :=
  let claims : Claims := ⟨userID, role, ⟨now + s.expiry, s.issuer, now⟩⟩
  ⟨Alg.HS256, claims, (Alg.HS256, s.secretKey, claims)⟩

/-- `ValidateToken` of service.go: the keyfunc rejects non-HMAC methods,
parsing verifies the signature under the service secret, and the jwt/v5
default validation rejects a token whose expiry is not after the current
time; on success the parsed claims are returned. -/
def ValidateToken (s : JwtService) (now : Int) (t : Token) :
    Except String Claims :=
  if ¬ t.alg.isHMAC = true then
    Except.error "unexpected signing method"
  else if ¬ t.sig = (t.alg, s.secretKey, t.claims) then
    Except.error "signature is invalid"
  else if t.claims.registered.expiresAt ≤ now then
    Except.error "token is expired"
  else
    Except.ok t.claims

end Auth

namespace AlphaK

/-- C2: every plan's stop price is the average entry price minus 3 times
ATR(14), and whenever (resistance - entry)/(entry - stop) is below 2.0 the
verdict is REJECT with reason "R/R below threshold", regardless of upstream
scores. -/
theorem risk_plan_stop_and_reject (t : String) (entry atr14 resistance : ℚ) :
    (RiskPlanner.plan t entry atr14 resistance).stop = entry - 3 * atr14 ∧
    ((resistance - entry) / (entry - (entry - 3 * atr14)) < 2 →
      (RiskPlanner.plan t entry atr14 resistance).verdict =
          PlanVerdict.REJECT ∧
        (RiskPlanner.plan t entry atr14 resistance).reason =
          "R/R below threshold") := by
  simp only [RiskPlanner.plan]
  split_ifs with h
  · exact ⟨rfl, fun _ => ⟨rfl, rfl⟩⟩
  · exact ⟨rfl, fun hlt => absurd hlt h⟩

/-- C2 witness: entry 10000 with ATR(14) 200 gives stop 9400, and with
resistance 11000 the reward/risk is below 2.0, so the plan is REJECT. -/
theorem risk_plan_stop_and_reject_witness :
    (RiskPlanner.plan "T" 10000 200 11000).stop = 9400 ∧
    (RiskPlanner.plan "T" 10000 200 11000).verdict = PlanVerdict.REJECT ∧
    (RiskPlanner.plan "T" 10000 200 11000).reason = "R/R below threshold" := by
  obtain ⟨h1, h2⟩ := risk_plan_stop_and_reject "T" 10000 200 11000
  obtain ⟨h3, h4⟩ := h2 (by norm_num)
  refine ⟨?_, h3, h4⟩
  rw [h1]; norm_num

/-- C3: every trade plan carries the fixed pyramiding schedule with
allocation fractions exactly (0.30, 0.30, 0.40) summing to 1.0 and strictly
ascending profit triggers 0, +3 percent, +5 percent. -/
theorem plan_pyramid_schedule (t : String) (entry atr14 resistance : ℚ) :
    (RiskPlanner.plan t entry atr14 resistance).pyramid.map Prod.fst =
        [3 / 10, 3 / 10, 4 / 10] ∧
    ((RiskPlanner.plan t entry atr14 resistance).pyramid.map Prod.fst).sum
        = 1 ∧
    (RiskPlanner.plan t entry atr14 resistance).pyramid.map Prod.snd =
        [0, 3 / 100, 5 / 100] ∧
    List.Chain' (fun a b => a < b)
      ((RiskPlanner.plan t entry atr14 resistance).pyramid.map Prod.snd) := by
  have hp : (RiskPlanner.plan t entry atr14 resistance).pyramid =
      pyramidSchedule := by
    simp only [RiskPlanner.plan]
    split_ifs <;> rfl
  rw [hp]
  refine ⟨rfl, by norm_num [pyramidSchedule], rfl, ?_⟩
  norm_num [pyramidSchedule, List.chain'_cons]

/-- C4: a pyramided add never lowers the stop: the stop after `addEntry` is
at least the stop before, when the recomputed formula value is not higher
the prior stop is retained, and across any sequence of additional entries
the final stop is at least the initial one. -/
theorem pyramiding_stop_trailing_up (atr14 : ℚ) (st : PositionState)
    (entries : List (ℚ × ℚ)) (price qty : ℚ) :
    st.stop ≤ (addEntry atr14 st price qty).stop ∧
    ((st.avgEntry * st.qty + price * qty) / (st.qty + qty) - 3 * atr14 ≤
        st.stop →
      (addEntry atr14 st price qty).stop = st.stop) ∧
    st.stop ≤
      (entries.foldl (fun s pq => addEntry atr14 s pq.1 pq.2) st).stop := by
  refine ⟨le_max_left _ _, fun h => max_eq_left h, ?_⟩
  induction entries generalizing st with
  | nil => exact le_refl _
  | cons e es ih =>
    exact le_trans (le_max_left _ _) (ih (addEntry atr14 st e.1 e.2))

/-- C4 witness: with ATR(14) 200, a position averaged at 10000 with stop
9400 keeps stop 9400 after adding at 9000 (the formula value 8900 is
lower), and the stop after adding at 10300 is at least 9400. -/
theorem pyramiding_stop_trailing_up_witness :
    (addEntry 200 ⟨10000, 1, 9400⟩ 9000 1).stop = 9400 ∧
    (9400 : ℚ) ≤ (addEntry 200 ⟨10000, 1, 9400⟩ 10300 1).stop :=
  ⟨(pyramiding_stop_trailing_up 200 ⟨10000, 1, 9400⟩ [] 9000 1).2.1
      (by norm_num),
    (pyramiding_stop_trailing_up 200 ⟨10000, 1, 9400⟩ [] 10300 1).1⟩

/-- C6 counterexample: the mapping of breadth ratio to multiplier is not
unconditional.  A snapshot with breadth ratio 50 (below 75), no volatility
hard stop, but FX/index correlation 0.5 gets its multiplier halved to 1/2;
and a snapshot with breadth ratio 50 whose volatility hard stop fires gets
multiplier 0. -/
theorem regime_breadth_counterexample :
    (((⟨0, 50, 10, 10, 100, 90, 1 / 2⟩ : MarketSnapshot).breadthRatio < 75) ∧
      (RegimeGate.evaluate ⟨0, 50, 10, 10, 100, 90, 1 / 2⟩).multiplier ≠ 1) ∧
    (((⟨0, 50, 21, 10, 80, 90, 0⟩ : MarketSnapshot).breadthRatio < 75) ∧
      (RegimeGate.evaluate ⟨0, 50, 21, 10, 80, 90, 0⟩).multiplier ≠ 1) := by
  refine ⟨⟨by norm_num, ?_⟩, ⟨by norm_num, ?_⟩⟩
  · simp only [RegimeGate.evaluate, volHardStop, breadthMultiplier]
    norm_num
  · simp only [RegimeGate.evaluate, volHardStop, breadthMultiplier]
    norm_num

/-- C6 (amended): provided the volatility hard stop does not fire and the
FX/index correlation does not exceed 0.2, the multiplier is 1.0 for breadth
ratio below 75, 1.0 on the pass-through band 75 to 120, and 0.0 above
120. -/
theorem regime_breadth_bands (s : MarketSnapshot)
    (hv : volHardStop s = false) (hc : s.fxCorrelation ≤ 2 / 10) :
    (s.breadthRatio < 75 → (RegimeGate.evaluate s).multiplier = 1) ∧
    (75 ≤ s.breadthRatio → s.breadthRatio ≤ 120 →
      (RegimeGate.evaluate s).multiplier = 1) ∧
    (120 < s.breadthRatio → (RegimeGate.evaluate s).multiplier = 0) := by
  have hcorr : ¬ ((2 : ℚ) / 10 < s.fxCorrelation) := not_lt.mpr hc
  refine ⟨?_, ?_, ?_⟩
  · intro h
    have h120 : ¬ ((120 : ℚ) < s.breadthRatio) := by intro hgt; linarith
    simp [RegimeGate.evaluate, hv, hcorr, breadthMultiplier, h120]
  · intro _ h2
    have h120 : ¬ ((120 : ℚ) < s.breadthRatio) := not_lt.mpr h2
    simp [RegimeGate.evaluate, hv, hcorr, breadthMultiplier, h120]
  · intro h
    simp [RegimeGate.evaluate, hv, hcorr, breadthMultiplier, h]

/-- C6 witness: a calm snapshot with breadth 50, no hard stop and zero
correlation gets multiplier 1. -/
theorem regime_breadth_bands_witness :
    volHardStop ⟨0, 50, 10, 10, 100, 90, 0⟩ = false ∧
    (RegimeGate.evaluate ⟨0, 50, 10, 10, 100, 90, 0⟩).multiplier = 1 :=
  ⟨by norm_num [volHardStop],
    (regime_breadth_bands ⟨0, 50, 10, 10, 100, 90, 0⟩
        (by norm_num [volHardStop]) (by norm_num)).1 (by norm_num)⟩

/-- C8: the Piotroski F-score is always at most 9 (it is a sum of nine
binary tests, hence a natural number in [0,9]), the verdict is PASS only
when the F-score is at least 7, and an F-score below 4 yields FAIL
regardless of any other score. -/
theorem fundamental_fscore_and_verdict (inp : FundamentalInput) :
    (FundamentalEvaluator.assess inp).fscore ≤ 9 ∧
    ((FundamentalEvaluator.assess inp).verdict = FundVerdict.PASS →
      7 ≤ (FundamentalEvaluator.assess inp).fscore) ∧
    ((FundamentalEvaluator.assess inp).fscore < 4 →
      (FundamentalEvaluator.assess inp).verdict = FundVerdict.FAIL) := by
  have hb : ∀ b : Bool, b.toNat ≤ 1 := by decide
  have h9 : fScore inp.fin ≤ 9 := by
    unfold fScore
    have h1 := hb (decide ((0 : ℚ) < inp.fin.roa))
    have h2 := hb (decide ((0 : ℚ) < inp.fin.ocf))
    have h3 := hb (decide (inp.fin.prevRoa < inp.fin.roa))
    have h4 := hb (decide (inp.fin.netIncome < inp.fin.ocf))
    have h5 := hb (decide (inp.fin.ltDebtRatio < inp.fin.prevLtDebtRatio))
    have h6 := hb (decide (inp.fin.prevCurrentRatio < inp.fin.currentRatio))
    have h7 := hb (!inp.fin.newSharesIssued)
    have h8 := hb (decide (inp.fin.prevGrossMargin < inp.fin.grossMargin))
    have h9 := hb (decide (inp.fin.prevAssetTurnover < inp.fin.assetTurnover))
    omega
  refine ⟨by simpa [FundamentalEvaluator.assess] using h9, ?_, ?_⟩
  · simp only [FundamentalEvaluator.assess]
    split_ifs with h
    · exact fun _ => h.1
    · intro hcon
      simp at hcon
  · simp only [FundamentalEvaluator.assess]
    split_ifs with h
    · intro h4
      omega
    · exact fun _ => rfl

/-- C8 witness: a concrete candidate scoring 3 of the 9 tests has F-score
at most 9 and verdict FAIL. -/
theorem fundamental_fscore_and_verdict_witness :
    (FundamentalEvaluator.assess
        ⟨⟨1, 2, 1, 5, 1, 1, 1, 1, false, 1, 1, 1, 1⟩, 5, 10, 1, false,
          0⟩).fscore ≤ 9 ∧
    (FundamentalEvaluator.assess
        ⟨⟨1, 2, 1, 5, 1, 1, 1, 1, false, 1, 1, 1, 1⟩, 5, 10, 1, false,
          0⟩).verdict = FundVerdict.FAIL :=
  ⟨(fundamental_fscore_and_verdict _).1,
    (fundamental_fscore_and_verdict _).2.2 (by decide)⟩

/-- C1: whenever the current volatility index exceeds the prior value times
1.05 and the index level is below its 20-day moving average, the regime
gate returns CRASH with multiplier 0 and the pipeline run invokes no phase
beyond Phase 1. -/
theorem hard_stop_short_circuits (inp : PipelineInput)
    (hv : inp.snapshot.priorVol * (105 / 100) < inp.snapshot.currentVol)
    (hm : inp.snapshot.indexLevel < inp.snapshot.indexMA20) :
    RegimeGate.evaluate inp.snapshot = ⟨Regime.CRASH, 0⟩ ∧
    (runPipeline inp).2 = [Phase.regime] ∧
    Phase.sector ∉ (runPipeline inp).2 ∧
    Phase.deepDive ∉ (runPipeline inp).2 ∧
    Phase.aggregate ∉ (runPipeline inp).2 ∧
    Phase.risk ∉ (runPipeline inp).2 := by
  have hstop : volHardStop inp.snapshot = true := by
    simp only [volHardStop, Bool.and_eq_true, decide_eq_true_eq]
    exact ⟨hv, hm⟩
  have heval : RegimeGate.evaluate inp.snapshot = ⟨Regime.CRASH, 0⟩ := by
    simp [RegimeGate.evaluate, hstop]
  have htrace : (runPipeline inp).2 = [Phase.regime] := by
    simp [runPipeline, heval]
  refine ⟨heval, htrace, ?_, ?_, ?_, ?_⟩ <;> rw [htrace] <;> simp

/-- C1 witness: a concrete snapshot with volatility 21 against prior 10
and index 80 below its moving average 90 yields CRASH with multiplier 0
and a trace stopping after Phase 1. -/
theorem hard_stop_short_circuits_witness :
    (10 : ℚ) * (105 / 100) < 21 ∧
    RegimeGate.evaluate ⟨0, 100, 21, 10, 80, 90, 0⟩ = ⟨Regime.CRASH, 0⟩ ∧
    (runPipeline ⟨⟨0, 100, 21, 10, 80, 90, 0⟩, ⟨0, 0, 0⟩, [], [], 0⟩).2 =
      [Phase.regime] := by
  have h :=
    hard_stop_short_circuits ⟨⟨0, 100, 21, 10, 80, 90, 0⟩, ⟨0, 0, 0⟩, [], [], 0⟩
      (by norm_num) (by norm_num)
  exact ⟨by norm_num, h.1, h.2.1⟩

/-- C5: the ranked list never contains a candidate whose fundamental
verdict is FAIL, whose technical score is below 70, or whose flow level is
LOW; every candidate failing one of these hard filters lands in the discard
list with a recorded reason. -/
theorem aggregator_hard_filters (cands : List Assessment3) :
    (∀ c ∈ (Aggregator.rank cands).1,
      c.fundVerdict ≠ FundVerdict.FAIL ∧ (70 : ℚ) ≤ c.techScore ∧
        c.flowLevel ≠ FlowLevel.LOW) ∧
    (∀ a ∈ cands,
      (a.fund.verdict = FundVerdict.FAIL ∨ a.tech.score < 70 ∨
          a.flow.level = FlowLevel.LOW) →
        ∃ d ∈ (Aggregator.rank cands).2,
          d.ticker = a.ticker ∧ d.discardReason ≠ none) := by
  constructor
  · intro c hc
    have hc' : c ∈ (((cands.filter keepCandidate).map
        compositeOf).insertionSort CompLE).take 3 := hc
    have h1 := List.mem_of_mem_take hc'
    have h2 : c ∈ (cands.filter keepCandidate).map compositeOf :=
      (List.perm_insertionSort CompLE _).mem_iff.mp h1
    obtain ⟨a, ha, rfl⟩ := List.mem_map.mp h2
    have hk : keepCandidate a = true := (List.mem_filter.mp ha).2
    simp only [keepCandidate, Bool.and_eq_true, decide_eq_true_eq] at hk
    simpa [compositeOf] using ⟨hk.1.1, hk.1.2, hk.2⟩
  · intro a ha hfail
    have hk : keepCandidate a = false := by
      rcases hfail with h | h | h
      · simp [keepCandidate, h]
      · simp [keepCandidate, not_le.mpr h]
      · simp [keepCandidate, h]
    refine ⟨discardOf a, ?_, rfl, ?_⟩
    · have : discardOf a ∈
          (cands.filter (fun x => ! keepCandidate x)).map discardOf :=
        List.mem_map_of_mem _ (List.mem_filter.mpr ⟨ha, by simp [hk]⟩)
      simpa [Aggregator.rank] using this
    · simp [discardOf]

/-- C5 witness: a candidate with FAIL fundamentals, technical score 50 and
LOW flow is recorded in the discard list with a reason. -/
theorem aggregator_hard_filters_witness :
    ∃ d ∈ (Aggregator.rank
        [⟨"B", ⟨50, 0, 0⟩, ⟨3, 1, 1, FundVerdict.FAIL, []⟩,
          ⟨false, false, 0, FlowLevel.LOW⟩⟩]).2,
      d.ticker = "B" ∧ d.discardReason ≠ none := by
  have h := (aggregator_hard_filters
      [⟨"B", ⟨50, 0, 0⟩, ⟨3, 1, 1, FundVerdict.FAIL, []⟩,
        ⟨false, false, 0, FlowLevel.LOW⟩⟩]).2
      ⟨"B", ⟨50, 0, 0⟩, ⟨3, 1, 1, FundVerdict.FAIL, []⟩,
        ⟨false, false, 0, FlowLevel.LOW⟩⟩ (by simp) (Or.inl rfl)
  simpa using h

/-- C7: the screener returns at most 3 sectors, ordered so that each
earlier sector has a strictly higher RS score or an equal score with a
1-month alpha at least as high, and every returned RS score is the
0.5/0.3/0.2 weighted blend of the three alphas. -/
theorem sector_screen_top3_sorted (bench : BenchmarkReturns)
    (sectors : List SectorData) :
    (SectorScreener.screen bench sectors).length ≤ 3 ∧
    (SectorScreener.screen bench sectors).Pairwise (fun a b =>
      b.rsScore < a.rsScore ∨
        (a.rsScore = b.rsScore ∧ b.alpha1m ≤ a.alpha1m)) ∧
    (∀ c ∈ SectorScreener.screen bench sectors,
      c.rsScore =
        (5 / 10) * c.alpha1w + (3 / 10) * c.alpha1m + (2 / 10) * c.alpha3m) := by
  refine ⟨List.length_take_le 3 _, ?_, ?_⟩
  · have hs : List.Pairwise SectorLE
        (List.insertionSort SectorLE (sectors.map (mkSectorCandidate bench))) :=
      List.sorted_insertionSort SectorLE _
    have ht : List.Pairwise SectorLE (SectorScreener.screen bench sectors) :=
      List.Pairwise.sublist (List.take_sublist 3 _) hs
    refine ht.imp ?_
    intro a b hab
    rcases (Prod.Lex.le_iff _ _).mp hab with h | ⟨h1, h2⟩
    · exact Or.inl (by simpa [neg_lt_neg_iff] using h)
    · refine Or.inr ⟨by simpa [neg_inj] using h1, ?_⟩
      rcases (Prod.Lex.le_iff _ _).mp h2 with h3 | ⟨h3, _⟩
      · exact le_of_lt (by simpa [neg_lt_neg_iff] using h3)
      · exact le_of_eq ((by simpa [neg_inj] using h3 : a.alpha1m = b.alpha1m)).symm
  · intro c hc
    have h1 := List.mem_of_mem_take
      (show c ∈ (List.insertionSort SectorLE
        (sectors.map (mkSectorCandidate bench))).take 3 from hc)
    have h2 : c ∈ sectors.map (mkSectorCandidate bench) :=
      (List.perm_insertionSort SectorLE _).mem_iff.mp h1
    obtain ⟨s, _, rfl⟩ := List.mem_map.mp h2
    simp [mkSectorCandidate]

/-- C7 witness: the screener applied to the empty sector list returns at
most 3 sectors. -/
theorem sector_screen_top3_sorted_witness :
    (SectorScreener.screen ⟨0, 0, 0⟩ []).length ≤ 3 :=
  (sector_screen_top3_sorted ⟨0, 0, 0⟩ []).1

/-- C9: two pipeline runs with identical injected inputs, executed in any
two ambient environments (wall clock, scheduler randomness), serialize to
byte-identical reports: the report is a function of the injected inputs
alone. -/
theorem pipeline_idempotent (amb1 amb2 : Ambient) (inp : PipelineInput) :
    serializeReport (runPipelineAt amb1 inp) =
      serializeReport (runPipelineAt amb2 inp) := rfl

end AlphaK

namespace Auth

/-- C10: a token produced by `GenerateToken` for any user id and role is
accepted by `ValidateToken` of the same service at any time before its
expiry, returning claims with the same user id and role and issuer
"woorung-gaksi". -/
theorem jwt_generate_validate_roundtrip (secret : List Nat)
    (expiry now viewTime : Int) (userID role : String)
    (h : viewTime < now + expiry) :
    ValidateToken (NewJWTService secret expiry) viewTime
        (GenerateToken (NewJWTService secret expiry) now userID role) =
      Except.ok ⟨userID, role, ⟨now + expiry, "woorung-gaksi", now⟩⟩ := by
  have hexp : ¬ (now + expiry ≤ viewTime) := not_le.mpr h
  simp [ValidateToken, GenerateToken, NewJWTService, Alg.isHMAC, hexp]

/-- C10 witness: the concrete cycle of the repository's
TestJWTService_Cycle: user_123 with role admin round-trips through a
service with a one-hour expiry, validated well before expiry. -/
theorem jwt_generate_validate_roundtrip_witness :
    (0 : Int) + 3600 = 3600 ∧
    ValidateToken (NewJWTService [1, 2, 3] 3600) 10
        (GenerateToken (NewJWTService [1, 2, 3] 3600) 0 "user_123" "admin") =
      Except.ok ⟨"user_123", "admin", ⟨3600, "woorung-gaksi", 0⟩⟩ :=
  ⟨by norm_num, by
    simpa using
      jwt_generate_validate_roundtrip [1, 2, 3] 3600 0 10 "user_123" "admin"
        (by norm_num)⟩

end Auth
